import Mathlib

/-
Shallow embedding of the Swift published-storage backend
(package swift, type PublishedStorage) of the aptly repository.

Modelling conventions:
  * An object's content is identified with its MD5 digest, so the
    container maps object keys to content-hash strings.
  * The external Swift client (github.com/ncw/swift) is modelled by its
    documented HTTP semantics: a HEAD probe of a missing key reports
    ObjectNotFound, deleting a missing key reports ObjectNotFound
    (Swift DELETE answers 404), and listing enumerates the container's
    keys.  Transport faults of the HEAD probe are part of the world
    state (probeFaults); other transport faults are not modelled, as no
    claim depends on them.
  * The local filesystem that os.Open reads from is an association list
    from filenames to content hashes.
  * Go's filepath.Join / filepath.Clean / filepath.Base are embedded on
    forward-slash paths (the only separator relevant to this backend).
-/

namespace AptlySwift

/-! ### Go path helpers (filepath.Clean, filepath.Join, filepath.Base) -/

/-- Split a character list on the slash character, mirroring how Go's
path functions view a path as slash-separated elements.  The second
argument is the (reversed) current component accumulator. -/
def splitSlash : List Char → List Char → List (List Char)
  | [], acc => [acc.reverse]
  | c :: cs, acc =>
    if c = '/' then acc.reverse :: splitSlash cs [] else splitSlash cs (c :: acc)

/-- Core of Go's filepath.Clean: process path components, dropping empty
and dot components and resolving dot-dot against the output stack.  The
output accumulator is kept reversed. -/
def cleanLoop (rooted : Bool) : List (List Char) → List (List Char) → List (List Char)
  | [], out => out
  | c :: cs, out =>
    if c = [] ∨ c = ['.'] then cleanLoop rooted cs out
    else if c = ['.', '.'] then
      match out with
      | [] => if rooted then cleanLoop rooted cs [] else cleanLoop rooted cs [['.', '.']]
      | o :: os =>
        if o = ['.', '.'] then cleanLoop rooted cs (['.', '.'] :: (o :: os))
        else cleanLoop rooted cs os
    else cleanLoop rooted cs (c :: out)

/-- Go's filepath.Clean restricted to the slash separator. -/
def filepathClean (p : String) : String :=
  if p = "" then "." else
  let cs := p.data
  let rooted := cs.head? = some '/'
  let out := (cleanLoop rooted (splitSlash cs []) []).reverse
  let body := String.mk (List.intercalate ['/'] out)
  if rooted then (if out = [] then "/" else "/" ++ body)
  else (if out = [] then "." else body)

/-- Go's filepath.Join on two elements: empty elements are skipped and
the joined string is Cleaned; if both are empty the result is empty. -/
def filepathJoin (a b : String) : String :=
  if a = "" then (if b = "" then "" else filepathClean b)
  else filepathClean (a ++ "/" ++ b)

/-- Trailing slashes removal, a step of Go's filepath.Base. -/
def dropTrailingSlashes (l : List Char) : List Char :=
  (l.reverse.dropWhile (fun c => c = '/')).reverse

/-- Go's filepath.Base restricted to the slash separator. -/
def filepathBase (p : String) : String :=
  if p = "" then "." else
  let q := dropTrailingSlashes p.data
  if q = [] then "/" else
  String.mk (match (splitSlash q []).getLast? with
             | some last => last
             | none => q)

/-! ### Association lists (container contents, local filesystem) -/

/-- Lookup in an association list of string pairs. -/
def alistLookup : List (String × String) → String → Option String
  | [], _ => none
  | (a, b) :: t, k => if a = k then some b else alistLookup t k

/-- Remove every pair bound to the given key. -/
def alistEraseKey : List (String × String) → String → List (String × String)
  | [], _ => []
  | (a, b) :: t, k =>
    if a = k then alistEraseKey t k else (a, b) :: alistEraseKey t k

/-! ### The Swift world state and client operations -/

/-- Errors reported by the external Swift client. -/
inductive SwiftErr where
  | objectNotFound
  | other (msg : String)
deriving DecidableEq, Repr

/-- The message carried by a Swift client error (ObjectNotFound is the
client's 404 sentinel). -/
def swiftErrMessage : SwiftErr → String
  | .objectNotFound => "Object Not Found"
  | .other msg => msg

/-- One Swift container: objects maps keys to content hashes;
probeFaults lists keys whose HEAD probe currently fails with a
transport error carrying the given message. -/
structure SwiftState where
  objects : List (String × String)
  probeFaults : List (String × String)
deriving DecidableEq, Repr

/-- swift.Connection.Object: HEAD probe returning the stored hash, the
ObjectNotFound sentinel when the key is absent, or an injected
transport error. -/
def swiftObject (s : SwiftState) (key : String) : Except SwiftErr String :=
  match alistLookup s.probeFaults key with
  | some msg => .error (.other msg)
  | none =>
    match alistLookup s.objects key with
    | some h => .ok h
    | none => .error .objectNotFound

/-- swift.Connection.ObjectPut: store content at key, overwriting. -/
def swiftObjectPut (s : SwiftState) (key hash : String) : SwiftState :=
  { s with objects := alistEraseKey s.objects key ++ [(key, hash)] }

/-- swift.Connection.ObjectDelete: DELETE of a missing key reports
ObjectNotFound (HTTP 404). -/
def swiftObjectDelete (s : SwiftState) (key : String) :
    Except SwiftErr Unit × SwiftState :=
  match alistLookup s.objects key with
  | some _ => (.ok (), { s with objects := alistEraseKey s.objects key })
  | none => (.error .objectNotFound, s)

/-- The container with every object at the given key dropped (the state
swift.Connection.ObjectDelete leaves on success). -/
def removeObject (s : SwiftState) (key : String) : SwiftState :=
  { s with objects := alistEraseKey s.objects key }

/-- swift.Connection.ObjectsAll: enumerate the container's object names
in the store's listing order. -/
def swiftObjectsAll (s : SwiftState) : List String :=
  s.objects.map Prod.fst

/-- Modelled from the spec: the external client's ObjectMove (used by
RenameFile, not itself part of the repository) "performs copy ... then
deletes the source", deleting only after the copy succeeded
(spec sections 4.1 and 4.3). -/
def swiftObjectMove (s : SwiftState) (srcKey dstKey : String) :
    Except SwiftErr Unit × SwiftState :=
  match alistLookup s.objects srcKey with
  | none => (.error .objectNotFound, s)
  | some c => swiftObjectDelete (swiftObjectPut s dstKey c) srcKey

/-! ### PublishedStorage (package swift) -/

/-- swift.PublishedStorage: connection credentials, container name and
the configured root key prefix (Go field name: prefix). -/
structure PublishedStorage where
  authUrl : String
  userName : String
  apiKey : String
  container : String
  pfx : String
deriving DecidableEq, Repr

/-- NewPublishedStorage: a root prefix of "/" is normalized to "". -/
def NewPublishedStorage (authUrl userName apiKey container pfx : String) :
    PublishedStorage :=
  { authUrl := authUrl, userName := userName, apiKey := apiKey,
    container := container, pfx := if pfx = "/" then "" else pfx }

/-- PublishedStorage.String. -/
def storageString (st : PublishedStorage) : String :=
  "Swift: " ++ st.authUrl ++ " " ++ st.userName ++ " " ++ st.container ++ " " ++ st.pfx

/-- strings.Replace(hash, quote, empty, -1): drop every double-quote
character. -/
def stripQuotes (h : String) : String :=
  String.mk (h.data.filter (fun c => c ≠ '"'))

/-- PublishedStorage.MkDir: a no-op for Swift. -/
def MkDir (_st : PublishedStorage) (s : SwiftState) (_path : String) :
    Except String Unit × SwiftState :=
  (.ok (), s)

/-- PublishedStorage.PutFile: open the local source file and upload its
content at prefix-joined path. -/
def PutFile (st : PublishedStorage) (fs : List (String × String)) (s : SwiftState)
    (path sourceFilename : String) : Except String Unit × SwiftState :=
  match alistLookup fs sourceFilename with
  | none => (.error ("open " ++ sourceFilename ++ ": no such file or directory"), s)
  | some content => (.ok (), swiftObjectPut s (filepathJoin st.pfx path) content)

/-- PublishedStorage.Remove: delete the prefix-joined key, wrapping any
client error. -/
def Remove (st : PublishedStorage) (s : SwiftState) (path : String) :
    Except String Unit × SwiftState :=
  match swiftObjectDelete s (filepathJoin st.pfx path) with
  | (.ok _, s1) => (.ok (), s1)
  | (.error e, s1) =>
    (.error ("error deleting " ++ path ++ " from " ++ storageString st ++ ": "
      ++ swiftErrMessage e), s1)

/-- PublishedStorage.Filelist: the joined listing root is computed (it
only feeds the error message in the source) and the names of ALL
objects of the container are returned, unfiltered and unstripped. -/
def Filelist (st : PublishedStorage) (s : SwiftState) (pfx : String) :
    Except String (List String) × SwiftState :=
  let joined := filepathJoin st.pfx pfx
  let _joined := if joined ≠ "" then joined ++ "/" else joined
  (.ok (swiftObjectsAll s), s)

/-- Loop body of PublishedStorage.RemoveDirs: remove each listed name in
order, returning at the first error. -/
def removeLoop (st : PublishedStorage) : List String → SwiftState →
    Except String Unit × SwiftState
  | [], s => (.ok (), s)
  | f :: rest, s =>
    match Remove st s f with
    | (.ok _, s1) => removeLoop st rest s1
    | (.error e, s1) => (.error e, s1)

/-- PublishedStorage.RemoveDirs: list, then remove each name, stopping
at the first error. -/
def RemoveDirs (st : PublishedStorage) (s : SwiftState) (path : String) :
    Except String Unit × SwiftState :=
  match Filelist st s path with
  | (.error e, s1) => (.error e, s1)
  | (.ok filelist, s1) => removeLoop st filelist s1

/-- PublishedStorage.LinkFromPool: probe the destination key; absent →
upload; present with equal (quote-stripped) hash → no-op; present with
different hash → error unless force, then upload; probe transport
error → wrapped error. -/
def LinkFromPool (st : PublishedStorage) (fs : List (String × String)) (s : SwiftState)
    (publishedDirectory sourcePath sourceMD5 : String) (force : Bool) :
    Except String Unit × SwiftState :=
  let baseName := filepathBase sourcePath
  let relPath := filepathJoin publishedDirectory baseName
  let poolPath := filepathJoin st.pfx relPath
  match swiftObject s poolPath with
  | .error .objectNotFound => PutFile st fs s relPath sourcePath
  | .error (.other msg) =>
    (.error ("error getting information about " ++ poolPath ++ " from "
      ++ storageString st ++ ": " ++ msg), s)
  | .ok objHash =>
    let destinationMD5 := stripQuotes objHash
    if destinationMD5 = sourceMD5 then (.ok (), s)
    else if (!force) ∧ destinationMD5 ≠ sourceMD5 then
      (.error ("error putting file to " ++ poolPath
        ++ ": file already exists and is different: " ++ storageString st), s)
    else PutFile st fs s relPath sourcePath

/-- PublishedStorage.RenameFile: delegate to the client's ObjectMove on
the prefix-joined keys. -/
def RenameFile (st : PublishedStorage) (s : SwiftState) (oldName newName : String) :
    Except String Unit × SwiftState :=
  match swiftObjectMove s (filepathJoin st.pfx oldName) (filepathJoin st.pfx newName) with
  | (.ok _, s1) => (.ok (), s1)
  | (.error e, s1) => (.error (swiftErrMessage e), s1)

/-- Modelled from the spec: the sequence of externally observable
states of RenameFile (initial, after the client's copy, after the
source delete); the delete happens only once the copy is confirmed. -/
def renameFileTrace (st : PublishedStorage) (s : SwiftState) (oldName newName : String) :
    List SwiftState :=
  let srcKey := filepathJoin st.pfx oldName
  let dstKey := filepathJoin st.pfx newName
  match alistLookup s.objects srcKey with
  | none => [s]
  | some c =>
    let s1 := swiftObjectPut s dstKey c
    [s, s1, (swiftObjectDelete s1 srcKey).2]

/-- The destination object key LinkFromPool works on. -/
def poolKey (st : PublishedStorage) (publishedDirectory sourcePath : String) : String :=
  filepathJoin st.pfx (filepathJoin publishedDirectory (filepathBase sourcePath))

/-- Modelled from the spec: best-effort removal loop — "must not stop
on first element failure ... returning the first error encountered but
having attempted all" (spec section 4.1). -/
def removeBestEffortLoop (st : PublishedStorage) :
    List String → SwiftState → Option String → Option String × SwiftState
  | [], s, firstErr => (firstErr, s)
  | f :: rest, s, firstErr =>
    match Remove st s f with
    | (.ok _, s1) => removeBestEffortLoop st rest s1 firstErr
    | (.error e, s1) => removeBestEffortLoop st rest s1 (firstErr <|> some e)

/-- Modelled from the spec: RemoveDirs as specified — attempt every
listed deletion and report the first error afterwards. -/
def removeDirsBestEffort (st : PublishedStorage) (s : SwiftState) (path : String) :
    Except String Unit × SwiftState :=
  match Filelist st s path with
  | (.error e, s1) => (.error e, s1)
  | (.ok filelist, s1) =>
    match removeBestEffortLoop st filelist s1 none with
    | (none, s2) => (.ok (), s2)
    | (some e, s2) => (.error e, s2)

/-! ### Substring test (for reasoning about error-message contents) -/

/-- Is the first list a leading segment of the second? -/
def listIsPrefixOf : List Char → List Char → Bool
  | [], _ => true
  | _ :: _, [] => false
  | a :: as, b :: bs => a = b && listIsPrefixOf as bs

/-- Does sub occur contiguously inside the second list? -/
def listContainsSub (sub : List Char) : List Char → Bool
  | [] => decide (sub = [])
  | c :: rest => listIsPrefixOf sub (c :: rest) || listContainsSub sub rest

/-- Substring containment on strings. -/
def strContainsSubstr (s sub : String) : Bool :=
  listContainsSub sub.data s.data

/-! ### Concrete storages, filesystems and container states used below -/

/-- A storage with root key prefix "p". -/
def stP : PublishedStorage :=
  { authUrl := "au", userName := "un", apiKey := "sk", container := "cn", pfx := "p" }

/-- A storage with empty root key prefix. -/
def stE : PublishedStorage :=
  { authUrl := "au", userName := "un", apiKey := "sk", container := "cn", pfx := "" }

/-- A storage with root key prefix "pp". -/
def stC2 : PublishedStorage :=
  { authUrl := "https://auth", userName := "user", apiKey := "sk",
    container := "cont", pfx := "pp" }

/-- Local pool filesystem holding one package file with hash bbbb2222. -/
def fsC2 : List (String × String) := [("pool/aa/pkg.deb", "bbbb2222")]

/-- Container already holding a different content (hash aaaa1111) at the
destination key of fsC2's package. -/
def sC2 : SwiftState :=
  { objects := [("pp/pool/main/pkg.deb", "aaaa1111")], probeFaults := [] }

/-- The conflict message LinkFromPool produces for stC2/sC2. -/
def msgC2 : String :=
  "error putting file to pp/pool/main/pkg.deb: file already exists and is different: Swift: https://auth user cont pp"

/-- An empty container. -/
def sEmpty : SwiftState := { objects := [], probeFaults := [] }

/-- Container of stP holding one object under the root and one outside it. -/
def sC1 : SwiftState := { objects := [("p/a/x", "h1"), ("q/y", "h2")], probeFaults := [] }

/-- Local pool filesystem holding one consistent package file. -/
def fsC3 : List (String × String) := [("pool/ab/lib.deb", "11aa22bb")]

/-- The container state after linking fsC3's package under pool/main. -/
def s1C3 : SwiftState := { objects := [("pool/main/lib.deb", "11aa22bb")], probeFaults := [] }

/-- Local pool filesystem holding one package file with hash d1e2. -/
def fsC4 : List (String × String) := [("pool/aa/libav.deb", "d1e2")]

/-- Container holding a single unrelated object. -/
def sC5 : SwiftState := { objects := [("kept.deb", "hk")], probeFaults := [] }

/-- Container of stP: two stray keys plus one key under the root. -/
def sC6 : SwiftState :=
  { objects := [("a", "h1"), ("b", "h2"), ("p/b", "h3")], probeFaults := [] }

/-- The first deletion error RemoveDirs hits on stP/sC6. -/
def msgC6 : String := "error deleting a from Swift: au un cn p: Object Not Found"

/-- Local filesystem with one uploadable file. -/
def fsC7 : List (String × String) := [("up/src.deb", "hh")]

/-- Container holding one object at key f. -/
def sC9 : SwiftState := { objects := [("f", "cc")], probeFaults := [] }

/-- Container whose destination-key probe fails with a transport error. -/
def sC10 : SwiftState :=
  { objects := [("existing.deb", "zz")],
    probeFaults := [("pool/main/liba/libav.deb", "transport timeout")] }

end AptlySwift

deriving instance DecidableEq for Except

namespace AptlySwift

/-! ### Association-list lemmas -/

theorem alistLookup_eraseKey_append_self (l : List (String × String)) (k v : String) :
    alistLookup (alistEraseKey l k ++ [(k, v)]) k = some v := by
  induction l with
  | nil => simp [alistEraseKey, alistLookup]
  | cons p t ih =>
    obtain ⟨a, b⟩ := p
    by_cases hak : a = k
    · simpa [alistEraseKey, hak] using ih
    · simpa [alistEraseKey, alistLookup, hak] using ih

theorem alistLookup_eraseKey_ne (l : List (String × String)) (k k' : String)
    (h : k' ≠ k) : alistLookup (alistEraseKey l k) k' = alistLookup l k' := by
  have hkk' : k ≠ k' := Ne.symm h
  induction l with
  | nil => rfl
  | cons p t ih =>
    obtain ⟨a, b⟩ := p
    by_cases hak : a = k
    · subst hak
      simp [alistEraseKey, alistLookup, hkk', ih]
    · by_cases hak' : a = k'
      · subst hak'
        simp [alistEraseKey, alistLookup, h, ih]
      · simp [alistEraseKey, alistLookup, hak, hak', ih]

theorem alistLookup_append_single_ne (l : List (String × String)) (k v k' : String)
    (h : k' ≠ k) : alistLookup (l ++ [(k, v)]) k' = alistLookup l k' := by
  induction l with
  | nil =>
    have : k ≠ k' := fun hh => h hh.symm
    simp [alistLookup, this]
  | cons p t ih =>
    obtain ⟨a, b⟩ := p
    by_cases hak' : a = k'
    · simp [alistLookup, hak']
    · simp [alistLookup, hak', ih]

theorem not_mem_eraseKey_map_fst (l : List (String × String)) (k : String) :
    k ∉ (alistEraseKey l k).map Prod.fst := by
  induction l with
  | nil => simp [alistEraseKey]
  | cons p t ih =>
    obtain ⟨a, b⟩ := p
    by_cases hak : a = k
    · simpa [alistEraseKey, hak] using ih
    · intro hmem
      simp only [alistEraseKey, if_neg hak, List.map_cons, List.mem_cons] at hmem
      rcases hmem with h1 | h2
      · exact hak h1.symm
      · exact ih h2

/-! ### Characterizations of the client and storage operations -/

theorem swiftObject_eq_fault (s : SwiftState) (key msg : String)
    (h : alistLookup s.probeFaults key = some msg) :
    swiftObject s key = .error (.other msg) := by
  simp [swiftObject, h]

theorem swiftObject_eq_found (s : SwiftState) (key hsh : String)
    (hpf : alistLookup s.probeFaults key = none)
    (h : alistLookup s.objects key = some hsh) :
    swiftObject s key = .ok hsh := by
  simp [swiftObject, hpf, h]

theorem swiftObject_eq_missing (s : SwiftState) (key : String)
    (hpf : alistLookup s.probeFaults key = none)
    (h : alistLookup s.objects key = none) :
    swiftObject s key = .error .objectNotFound := by
  simp [swiftObject, hpf, h]

theorem swiftObjectPut_lookup_self (s : SwiftState) (k v : String) :
    alistLookup (swiftObjectPut s k v).objects k = some v :=
  alistLookup_eraseKey_append_self s.objects k v

theorem swiftObjectPut_lookup_ne (s : SwiftState) (k v k' : String) (h : k' ≠ k) :
    alistLookup (swiftObjectPut s k v).objects k' = alistLookup s.objects k' := by
  unfold swiftObjectPut
  rw [alistLookup_append_single_ne _ _ _ _ h, alistLookup_eraseKey_ne _ _ _ h]

theorem remove_eq_absent (st : PublishedStorage) (s : SwiftState) (path : String)
    (h : alistLookup s.objects (filepathJoin st.pfx path) = none) :
    Remove st s path =
      (.error ("error deleting " ++ path ++ " from " ++ storageString st
        ++ ": " ++ "Object Not Found"), s) := by
  simp [Remove, swiftObjectDelete, h, swiftErrMessage]

theorem remove_eq_present (st : PublishedStorage) (s : SwiftState) (path hsh : String)
    (h : alistLookup s.objects (filepathJoin st.pfx path) = some hsh) :
    Remove st s path = (.ok (), removeObject s (filepathJoin st.pfx path)) := by
  simp [Remove, swiftObjectDelete, removeObject, h]

theorem putFile_eq_found (st : PublishedStorage) (fs : List (String × String))
    (s : SwiftState) (path src content : String)
    (h : alistLookup fs src = some content) :
    PutFile st fs s path src =
      (.ok (), swiftObjectPut s (filepathJoin st.pfx path) content) := by
  simp [PutFile, h]

theorem filepathJoin_empty_left (p : String) (h0 : p ≠ "") :
    filepathJoin "" p = filepathClean p := by
  simp [filepathJoin, h0]

theorem linkFromPool_missing (st : PublishedStorage) (fs : List (String × String))
    (s : SwiftState) (dir sourcePath md5 : String) (force : Bool)
    (h : swiftObject s (poolKey st dir sourcePath) = .error .objectNotFound) :
    LinkFromPool st fs s dir sourcePath md5 force =
      PutFile st fs s (filepathJoin dir (filepathBase sourcePath)) sourcePath := by
  simp only [poolKey] at h
  simp [LinkFromPool, h]

theorem linkFromPool_fault (st : PublishedStorage) (fs : List (String × String))
    (s : SwiftState) (dir sourcePath md5 : String) (force : Bool) (msg : String)
    (h : swiftObject s (poolKey st dir sourcePath) = .error (.other msg)) :
    LinkFromPool st fs s dir sourcePath md5 force =
      (.error ("error getting information about " ++ poolKey st dir sourcePath
        ++ " from " ++ storageString st ++ ": " ++ msg), s) := by
  simp only [poolKey] at h ⊢
  simp [LinkFromPool, h]

theorem linkFromPool_same_hash (st : PublishedStorage) (fs : List (String × String))
    (s : SwiftState) (dir sourcePath md5 : String) (force : Bool) (objHash : String)
    (h : swiftObject s (poolKey st dir sourcePath) = .ok objHash)
    (heq : stripQuotes objHash = md5) :
    LinkFromPool st fs s dir sourcePath md5 force = (.ok (), s) := by
  simp only [poolKey] at h
  simp [LinkFromPool, h, heq]

theorem linkFromPool_conflict_noforce (st : PublishedStorage) (fs : List (String × String))
    (s : SwiftState) (dir sourcePath md5 : String) (objHash : String)
    (h : swiftObject s (poolKey st dir sourcePath) = .ok objHash)
    (hne : stripQuotes objHash ≠ md5) :
    LinkFromPool st fs s dir sourcePath md5 false =
      (.error ("error putting file to " ++ poolKey st dir sourcePath
        ++ ": file already exists and is different: " ++ storageString st), s) := by
  simp only [poolKey] at h ⊢
  simp [LinkFromPool, h, hne]

theorem linkFromPool_conflict_force (st : PublishedStorage) (fs : List (String × String))
    (s : SwiftState) (dir sourcePath md5 : String) (objHash : String)
    (h : swiftObject s (poolKey st dir sourcePath) = .ok objHash)
    (hne : stripQuotes objHash ≠ md5) :
    LinkFromPool st fs s dir sourcePath md5 true =
      PutFile st fs s (filepathJoin dir (filepathBase sourcePath)) sourcePath := by
  simp only [poolKey] at h
  simp [LinkFromPool, h, hne]

end AptlySwift

namespace AptlySwift

/-! ### Claim theorems -/

/-- Claim C8: for every path, MkDir on the Swift backend is a no-op that
returns success and leaves the entire storage state unchanged. -/
theorem MkDir_is_noop (st : PublishedStorage) (s : SwiftState) (path : String) :
    MkDir st s path = (.ok (), s) := rfl

/-- Claim C1 (code defect): Filelist does not restrict the listing to the
configured root joined with the requested path and does not strip the
configured root: with root "p" and argument "a" it returns the raw keys
of every object of the container, including q/y which lies outside the
root, and p/a/x instead of the root-relative a/x. -/
theorem Filelist_lists_container_unfiltered :
    Filelist stP sC1 "a" = (.ok ["p/a/x", "q/y"], sC1) ∧
    "q/y" ∈ ["p/a/x", "q/y"] ∧ "a/x" ∉ ["p/a/x", "q/y"] := by decide

/-- Claim C2 counterexample: with two different checksums aaaa1111 (in
the store) and bbbb2222 (the pool entry) mapping to the same destination
filename, LinkFromPool with force off fails and leaves the container
unchanged, but its error message, while naming the destination path,
mentions neither of the two hashes, contrary to the claim. -/
theorem LinkFromPool_conflict_message_omits_hashes :
    LinkFromPool stC2 fsC2 sC2 "pool/main" "pool/aa/pkg.deb" "bbbb2222" false =
      (.error msgC2, sC2) ∧
    strContainsSubstr msgC2 "pp/pool/main/pkg.deb" = true ∧
    strContainsSubstr msgC2 "aaaa1111" = false ∧
    strContainsSubstr msgC2 "bbbb2222" = false := by decide

/-- Claim C2 (amended): for every pair of pool entries with different
checksums mapping to the same destination filename, LinkFromPool with
force off fails with an error naming the destination path (but not the
hashes) and leaves the container unchanged, while LinkFromPool with
force on overwrites and leaves the destination content matching the
second entry's checksum. -/
theorem LinkFromPool_conflict_detection (st : PublishedStorage)
    (fs : List (String × String)) (s : SwiftState) (dir sourcePath h1 h2 : String)
    (hpf : alistLookup s.probeFaults (poolKey st dir sourcePath) = none)
    (hobj : alistLookup s.objects (poolKey st dir sourcePath) = some h1)
    (hne : stripQuotes h1 ≠ h2)
    (hfs : alistLookup fs sourcePath = some h2) :
    LinkFromPool st fs s dir sourcePath h2 false =
      (.error ("error putting file to " ++ poolKey st dir sourcePath
        ++ ": file already exists and is different: " ++ storageString st), s) ∧
    LinkFromPool st fs s dir sourcePath h2 true =
      (.ok (), swiftObjectPut s (poolKey st dir sourcePath) h2) ∧
    alistLookup (swiftObjectPut s (poolKey st dir sourcePath) h2).objects
      (poolKey st dir sourcePath) = some h2 := by
  have hso : swiftObject s (poolKey st dir sourcePath) = .ok h1 :=
    swiftObject_eq_found s _ h1 hpf hobj
  refine ⟨linkFromPool_conflict_noforce st fs s dir sourcePath h2 h1 hso hne, ?_,
    swiftObjectPut_lookup_self s (poolKey st dir sourcePath) h2⟩
  rw [linkFromPool_conflict_force st fs s dir sourcePath h2 h1 hso hne,
    putFile_eq_found st fs s (filepathJoin dir (filepathBase sourcePath)) sourcePath h2 hfs]
  rfl

/-- Witness for the amended claim C2 at the concrete conflict scenario. -/
theorem LinkFromPool_conflict_detection_witness :
    LinkFromPool stC2 fsC2 sC2 "pool/main" "pool/aa/pkg.deb" "bbbb2222" false =
      (.error ("error putting file to " ++ poolKey stC2 "pool/main" "pool/aa/pkg.deb"
        ++ ": file already exists and is different: " ++ storageString stC2), sC2) ∧
    LinkFromPool stC2 fsC2 sC2 "pool/main" "pool/aa/pkg.deb" "bbbb2222" true =
      (.ok (), swiftObjectPut sC2 (poolKey stC2 "pool/main" "pool/aa/pkg.deb") "bbbb2222") ∧
    alistLookup (swiftObjectPut sC2 (poolKey stC2 "pool/main" "pool/aa/pkg.deb") "bbbb2222").objects
      (poolKey stC2 "pool/main" "pool/aa/pkg.deb") = some "bbbb2222" :=
  LinkFromPool_conflict_detection stC2 fsC2 sC2 "pool/main" "pool/aa/pkg.deb"
    "aaaa1111" "bbbb2222" (by decide) (by decide) (by decide) (by decide)

/-- Claim C3: LinkFromPool is idempotent — under a fault-free probe and
a pool entry whose file content matches its declared checksum, once a
call has succeeded, calling again with the same entry, destination and
force flag is a no-op that succeeds and leaves the published state of
the first call unchanged. -/
theorem LinkFromPool_idempotent (st : PublishedStorage) (fs : List (String × String))
    (s : SwiftState) (dir sourcePath md5 : String) (force : Bool) (s1 : SwiftState)
    (hfs : alistLookup fs sourcePath = some md5)
    (hq : stripQuotes md5 = md5)
    (hpf : alistLookup s.probeFaults (poolKey st dir sourcePath) = none)
    (hrun : LinkFromPool st fs s dir sourcePath md5 force = (.ok (), s1)) :
    LinkFromPool st fs s1 dir sourcePath md5 force = (.ok (), s1) := by
  rcases hobj : alistLookup s.objects (poolKey st dir sourcePath) with _ | objHash
  · have hso := swiftObject_eq_missing s (poolKey st dir sourcePath) hpf hobj
    have h1 : LinkFromPool st fs s dir sourcePath md5 force =
        (.ok (), swiftObjectPut s (poolKey st dir sourcePath) md5) := by
      rw [linkFromPool_missing st fs s dir sourcePath md5 force hso,
        putFile_eq_found st fs s (filepathJoin dir (filepathBase sourcePath)) sourcePath md5 hfs]
      rfl
    rw [h1] at hrun
    have hs1 : swiftObjectPut s (poolKey st dir sourcePath) md5 = s1 :=
      congrArg Prod.snd hrun
    subst hs1
    exact linkFromPool_same_hash st fs _ dir sourcePath md5 force md5
      (swiftObject_eq_found _ _ md5 hpf
        (swiftObjectPut_lookup_self s (poolKey st dir sourcePath) md5)) hq
  · have hso := swiftObject_eq_found s (poolKey st dir sourcePath) objHash hpf hobj
    by_cases heq : stripQuotes objHash = md5
    · have h1 := linkFromPool_same_hash st fs s dir sourcePath md5 force objHash hso heq
      rw [h1] at hrun
      have hs1 : s = s1 := congrArg Prod.snd hrun
      subst hs1
      exact h1
    · cases force with
      | false =>
        rw [linkFromPool_conflict_noforce st fs s dir sourcePath md5 objHash hso heq] at hrun
        simp at hrun
      | true =>
        have h1 : LinkFromPool st fs s dir sourcePath md5 true =
            (.ok (), swiftObjectPut s (poolKey st dir sourcePath) md5) := by
          rw [linkFromPool_conflict_force st fs s dir sourcePath md5 objHash hso heq,
            putFile_eq_found st fs s (filepathJoin dir (filepathBase sourcePath)) sourcePath md5 hfs]
          rfl
        rw [h1] at hrun
        have hs1 : swiftObjectPut s (poolKey st dir sourcePath) md5 = s1 :=
          congrArg Prod.snd hrun
        subst hs1
        exact linkFromPool_same_hash st fs _ dir sourcePath md5 true md5
          (swiftObject_eq_found _ _ md5 hpf
            (swiftObjectPut_lookup_self s (poolKey st dir sourcePath) md5)) hq

/-- Witness for claim C3: after linking fsC3's package into an empty
container, linking it again is a successful no-op. -/
theorem LinkFromPool_idempotent_witness :
    LinkFromPool stE fsC3 s1C3 "pool/main" "pool/ab/lib.deb" "11aa22bb" false =
      (.ok (), s1C3) :=
  LinkFromPool_idempotent stE fsC3 sEmpty "pool/main" "pool/ab/lib.deb" "11aa22bb"
    false s1C3 (by decide) (by decide) (by decide) (by decide)

/-- Claim C4 (code defect): a successful LinkFromPool call evaluates to
the unit success value — the function's result carries no path, even
though the upload goes to the destination pool/main/liba/libav.deb
(destination directory joined with the basename of the source path)
that the function's own documentation says is returned. -/
theorem LinkFromPool_success_returns_unit :
    LinkFromPool stE fsC4 sEmpty "pool/main/liba" "pool/aa/libav.deb" "d1e2" false =
      (Except.ok Unit.unit,
       { objects := [("pool/main/liba/libav.deb", "d1e2")], probeFaults := [] }) := by decide

/-- Claim C5 counterexample: removing an already-absent path is an
error — Remove of missing.deb on a container that does not hold it
fails with a wrapped not-found error instead of succeeding. -/
theorem Remove_absent_path_errors :
    Remove stE sC5 "missing.deb" =
      (.error "error deleting missing.deb from Swift: au un cn : Object Not Found",
       sC5) := by decide

/-- Claim C5 (amended): Remove deletes exactly the entry at the path
when one exists and succeeds; removing an already-absent path is an
error wrapping the client's not-found report. -/
theorem Remove_deletes_present_errors_absent (st : PublishedStorage) (s : SwiftState)
    (path : String) :
    (alistLookup s.objects (filepathJoin st.pfx path) = none →
      Remove st s path = (.error ("error deleting " ++ path ++ " from "
        ++ storageString st ++ ": " ++ "Object Not Found"), s)) ∧
    (∀ hsh, alistLookup s.objects (filepathJoin st.pfx path) = some hsh →
      Remove st s path = (.ok (), removeObject s (filepathJoin st.pfx path))) :=
  ⟨fun h => remove_eq_absent st s path h, fun _ h => remove_eq_present st s path _ h⟩

/-- Witness for the amended claim C5: the absent and the present case at
concrete inputs. -/
theorem Remove_deletes_present_errors_absent_witness :
    Remove stE sC5 "gone.deb" = (.error ("error deleting " ++ "gone.deb" ++ " from "
      ++ storageString stE ++ ": " ++ "Object Not Found"), sC5) ∧
    Remove stE sC5 "kept.deb" =
      (.ok (), removeObject sC5 (filepathJoin stE.pfx "kept.deb")) :=
  ⟨(Remove_deletes_present_errors_absent stE sC5 "gone.deb").1 (by decide),
   (Remove_deletes_present_errors_absent stE sC5 "kept.deb").2 "hk" (by decide)⟩

/-- Claim C6 counterexample: RemoveDirs is not best-effort.  On stP/sC6
the first listed name fails to delete and RemoveDirs returns at once
with the container untouched, whereas the best-effort removal the spec
demands would still have deleted key p/b (listed name b) and returned
the same first error; the two resulting states differ. -/
theorem RemoveDirs_not_best_effort :
    RemoveDirs stP sC6 "" = (.error msgC6, sC6) ∧
    removeDirsBestEffort stP sC6 "" =
      (.error msgC6, { objects := [("a", "h1"), ("b", "h2")], probeFaults := [] }) ∧
    (RemoveDirs stP sC6 "").2 ≠ (removeDirsBestEffort stP sC6 "").2 := by decide

/-- Claim C6 (amended): RemoveDirs attempts the listed deletions in
order but stops at the first per-element failure, returning its error
with the remaining targets unattempted: when the first listed name's
key is absent, RemoveDirs returns the wrapped not-found error and the
container is unchanged. -/
theorem RemoveDirs_stops_on_first_failure (st : PublishedStorage) (s : SwiftState)
    (path n : String) (rest : List String)
    (hlist : swiftObjectsAll s = n :: rest)
    (habs : alistLookup s.objects (filepathJoin st.pfx n) = none) :
    RemoveDirs st s path =
      (.error ("error deleting " ++ n ++ " from " ++ storageString st
        ++ ": " ++ "Object Not Found"), s) := by
  have hrm := remove_eq_absent st s n habs
  simp [RemoveDirs, Filelist, hlist, removeLoop, hrm]

/-- Witness for the amended claim C6 at the concrete container sC6. -/
theorem RemoveDirs_stops_on_first_failure_witness :
    RemoveDirs stP sC6 "" =
      (.error ("error deleting " ++ "a" ++ " from " ++ storageString stP
        ++ ": " ++ "Object Not Found"), sC6) :=
  RemoveDirs_stops_on_first_failure stP sC6 "" "a" ["b", "p/b"] (by decide) (by decide)

/-- Claim C7 counterexample: with configured root "p", after a
successful PutFile of a/b the list Filelist returns does not include
a/b — it includes only the raw key p/a/b. -/
theorem round_trip_fails_with_nonempty_root :
    PutFile stP fsC7 sEmpty "a/b" "up/src.deb" =
      (.ok (), { objects := [("p/a/b", "hh")], probeFaults := [] }) ∧
    Filelist stP { objects := [("p/a/b", "hh")], probeFaults := [] } "a" =
      (.ok ["p/a/b"], { objects := [("p/a/b", "hh")], probeFaults := [] }) ∧
    "a/b" ∉ ["p/a/b"] := by decide

/-- Claim C7 (amended): with an empty configured root, for every
normalized non-empty path, after a successful PutFile the list returned
by Filelist includes the path, and after a subsequent successful Remove
it no longer does. -/
theorem round_trip_with_empty_root (st : PublishedStorage) (fs : List (String × String))
    (s : SwiftState) (q path src hsh : String)
    (hpfx : st.pfx = "") (h0 : path ≠ "") (hclean : filepathClean path = path)
    (hfs : alistLookup fs src = some hsh) :
    PutFile st fs s path src = (.ok (), swiftObjectPut s path hsh) ∧
    Filelist st (swiftObjectPut s path hsh) q =
      (.ok (swiftObjectsAll (swiftObjectPut s path hsh)), swiftObjectPut s path hsh) ∧
    path ∈ swiftObjectsAll (swiftObjectPut s path hsh) ∧
    Remove st (swiftObjectPut s path hsh) path =
      (.ok (), removeObject (swiftObjectPut s path hsh) path) ∧
    path ∉ swiftObjectsAll (removeObject (swiftObjectPut s path hsh) path) := by
  have hjoin : filepathJoin st.pfx path = path := by
    rw [hpfx, filepathJoin_empty_left path h0, hclean]
  refine ⟨?_, rfl, ?_, ?_, ?_⟩
  · rw [putFile_eq_found st fs s path src hsh hfs, hjoin]
  · show path ∈ (alistEraseKey s.objects path ++ [(path, hsh)]).map Prod.fst
    simp
  · have hlk : alistLookup (swiftObjectPut s path hsh).objects
        (filepathJoin st.pfx path) = some hsh := by
      rw [hjoin]
      exact swiftObjectPut_lookup_self s path hsh
    rw [remove_eq_present st (swiftObjectPut s path hsh) path hsh hlk, hjoin]
  · exact not_mem_eraseKey_map_fst (swiftObjectPut s path hsh).objects path

/-- Witness for the amended claim C7 at a concrete upload of a/b. -/
theorem round_trip_with_empty_root_witness :
    PutFile stE fsC7 sEmpty "a/b" "up/src.deb" = (.ok (), swiftObjectPut sEmpty "a/b" "hh") ∧
    Filelist stE (swiftObjectPut sEmpty "a/b" "hh") "a" =
      (.ok (swiftObjectsAll (swiftObjectPut sEmpty "a/b" "hh")),
       swiftObjectPut sEmpty "a/b" "hh") ∧
    "a/b" ∈ swiftObjectsAll (swiftObjectPut sEmpty "a/b" "hh") ∧
    Remove stE (swiftObjectPut sEmpty "a/b" "hh") "a/b" =
      (.ok (), removeObject (swiftObjectPut sEmpty "a/b" "hh") "a/b") ∧
    "a/b" ∉ swiftObjectsAll (removeObject (swiftObjectPut sEmpty "a/b" "hh") "a/b") :=
  round_trip_with_empty_root stE fsC7 sEmpty "a" "a/b" "up/src.deb" "hh"
    (by decide) (by decide) (by decide) (by decide)

/-- Claim C9 counterexample: renaming a file onto its own name destroys
it under the copy-then-delete move — the call reports success but on
completion the content is at neither location, so it is not at newName. -/
theorem RenameFile_same_name_drops_object :
    RenameFile stE sC9 "f" "f" = (.ok (), sEmpty) ∧
    renameFileTrace stE sC9 "f" "f" = [sC9, sC9, sEmpty] ∧
    alistLookup sEmpty.objects (filepathJoin stE.pfx "f") = none := by decide

/-- Claim C9 (amended): for oldName and newName whose prefix-joined keys
are distinct, every observable state of the copy-then-delete rename
holds the content at the old or at the new location (the source is
deleted only after the copy), and on completion the content is at
newName. -/
theorem RenameFile_safety_distinct_keys (st : PublishedStorage) (s : SwiftState)
    (oldName newName c : String)
    (hsrc : alistLookup s.objects (filepathJoin st.pfx oldName) = some c)
    (hne : filepathJoin st.pfx oldName ≠ filepathJoin st.pfx newName) :
    (∀ t ∈ renameFileTrace st s oldName newName,
      alistLookup t.objects (filepathJoin st.pfx oldName) = some c ∨
      alistLookup t.objects (filepathJoin st.pfx newName) = some c) ∧
    RenameFile st s oldName newName =
      (.ok (), removeObject (swiftObjectPut s (filepathJoin st.pfx newName) c)
        (filepathJoin st.pfx oldName)) ∧
    alistLookup (removeObject (swiftObjectPut s (filepathJoin st.pfx newName) c)
        (filepathJoin st.pfx oldName)).objects (filepathJoin st.pfx newName) = some c := by
  have hlookup1 : alistLookup (swiftObjectPut s (filepathJoin st.pfx newName) c).objects
      (filepathJoin st.pfx oldName) = some c := by
    rw [swiftObjectPut_lookup_ne s (filepathJoin st.pfx newName) c
      (filepathJoin st.pfx oldName) hne]
    exact hsrc
  have hdk : alistLookup (removeObject (swiftObjectPut s (filepathJoin st.pfx newName) c)
      (filepathJoin st.pfx oldName)).objects (filepathJoin st.pfx newName) = some c := by
    show alistLookup (alistEraseKey (swiftObjectPut s (filepathJoin st.pfx newName) c).objects
      (filepathJoin st.pfx oldName)) (filepathJoin st.pfx newName) = some c
    rw [alistLookup_eraseKey_ne _ _ _ (Ne.symm hne)]
    exact swiftObjectPut_lookup_self s (filepathJoin st.pfx newName) c
  have hdel : swiftObjectDelete (swiftObjectPut s (filepathJoin st.pfx newName) c)
      (filepathJoin st.pfx oldName) =
      (.ok (), removeObject (swiftObjectPut s (filepathJoin st.pfx newName) c)
        (filepathJoin st.pfx oldName)) := by
    simp [swiftObjectDelete, removeObject, hlookup1]
  refine ⟨?_, ?_, hdk⟩
  · intro t ht
    simp only [renameFileTrace, hsrc, List.mem_cons, List.not_mem_nil, or_false] at ht
    rcases ht with rfl | rfl | rfl
    · exact Or.inl hsrc
    · exact Or.inr (swiftObjectPut_lookup_self s (filepathJoin st.pfx newName) c)
    · rw [hdel]
      exact Or.inr hdk
  · simp [RenameFile, swiftObjectMove, hsrc, hdel]

/-- Witness for the amended claim C9: rename of f to g on a one-object
container. -/
theorem RenameFile_safety_distinct_keys_witness :
    (∀ t ∈ renameFileTrace stE sC9 "f" "g",
      alistLookup t.objects (filepathJoin stE.pfx "f") = some "cc" ∨
      alistLookup t.objects (filepathJoin stE.pfx "g") = some "cc") ∧
    RenameFile stE sC9 "f" "g" =
      (.ok (), removeObject (swiftObjectPut sC9 (filepathJoin stE.pfx "g") "cc")
        (filepathJoin stE.pfx "f")) ∧
    alistLookup (removeObject (swiftObjectPut sC9 (filepathJoin stE.pfx "g") "cc")
        (filepathJoin stE.pfx "f")).objects (filepathJoin stE.pfx "g") = some "cc" :=
  RenameFile_safety_distinct_keys stE sC9 "f" "g" "cc" (by decide) (by decide)

/-- Claim C10: for every force flag, when the destination probe fails
with a transport error (anything other than the not-found sentinel),
LinkFromPool returns the wrapped probe error at once, performing no
upload and leaving the container unchanged. -/
theorem LinkFromPool_probe_fault_aborts (st : PublishedStorage)
    (fs : List (String × String)) (s : SwiftState)
    (dir sourcePath md5 : String) (force : Bool) (msg : String)
    (h : alistLookup s.probeFaults (poolKey st dir sourcePath) = some msg) :
    LinkFromPool st fs s dir sourcePath md5 force =
      (.error ("error getting information about " ++ poolKey st dir sourcePath
        ++ " from " ++ storageString st ++ ": " ++ msg), s) :=
  linkFromPool_fault st fs s dir sourcePath md5 force msg
    (swiftObject_eq_fault s (poolKey st dir sourcePath) msg h)

/-- Witness for claim C10: a faulted probe with force on. -/
theorem LinkFromPool_probe_fault_aborts_witness :
    LinkFromPool stE fsC4 sC10 "pool/main/liba" "pool/aa/libav.deb" "d1e2" true =
      (.error ("error getting information about "
        ++ poolKey stE "pool/main/liba" "pool/aa/libav.deb"
        ++ " from " ++ storageString stE ++ ": " ++ "transport timeout"), sC10) :=
  LinkFromPool_probe_fault_aborts stE fsC4 sC10 "pool/main/liba" "pool/aa/libav.deb"
    "d1e2" true "transport timeout" (by decide)

end AptlySwift
